import Mathlib

/-!
# Verification of the bevy_audio spatial playback engine

Shallow embedding of `crates/bevy_audio` (files `audio.rs`, `audio_output.rs`,
`lib.rs`).  `f32` scalars are modelled exactly as rationals (the claims under
study are about which expression is computed, not about rounding), `glam::Vec3`
as a triple of rationals, and the ECS world as an association list from entity
ids to component records.  Bevy `Commands` are deferred until after a system
runs, so each per-frame system reads a fixed snapshot of the world; the
embeddings below evaluate every query on the input world and produce the world
obtained after command application, exactly mirroring that semantics.
Backend effects (rodio) are modelled by explicit sink states carrying a command
trace, and by oracles for asset readiness, sink-open success and the
backend-reported "queue empty" flag.
-/

namespace BevyAudio

/-- Model of glam Vec3 with exact rational coordinates. -/
structure Vec3 where
  x : ℚ
  y : ℚ
  z : ℚ
deriving DecidableEq, Repr

/-- Componentwise product, the meaning of `Vec3 * Vec3` in glam
(used by the source as `translation * spatial_scale.0`). -/
def Vec3.hadamard (a b : Vec3) : Vec3 :=
  ⟨a.x * b.x, a.y * b.y, a.z * b.z⟩

/-- Scalar multiple of a vector. -/
def Vec3.smul (c : ℚ) (v : Vec3) : Vec3 :=
  ⟨c * v.x, c * v.y, c * v.z⟩

/-- Vector addition. -/
def Vec3.add (a b : Vec3) : Vec3 :=
  ⟨a.x + b.x, a.y + b.y, a.z + b.z⟩

/-- Constant Vec3::ZERO. -/
def Vec3.ZERO : Vec3 := ⟨0, 0, 0⟩

/-- Constant Vec3::ONE. -/
def Vec3.ONE : Vec3 := ⟨1, 1, 1⟩

/-- Constant Vec3::X. -/
def Vec3.unitX : Vec3 := ⟨1, 0, 0⟩

/-- Model of bevy_transform GlobalTransform: an affine map given by the three
matrix columns plus a translation. -/
structure GlobalTransform where
  matX : Vec3
  matY : Vec3
  matZ : Vec3
  translation : Vec3
deriving DecidableEq, Repr

/-- Method GlobalTransform::transform_point: apply the affine map to a point. -/
def GlobalTransform.transform_point (t : GlobalTransform) (p : Vec3) : Vec3 :=
  (((Vec3.smul p.x t.matX).add (Vec3.smul p.y t.matY)).add
    (Vec3.smul p.z t.matZ)).add t.translation

/-- The identity transform (unit matrix, zero translation). -/
def GlobalTransform.IDENTITY : GlobalTransform :=
  ⟨⟨1, 0, 0⟩, ⟨0, 1, 0⟩, ⟨0, 0, 1⟩, Vec3.ZERO⟩

/-- Struct VolumeLevel from audio.rs, wrapping one non-negative scalar. -/
structure VolumeLevel where
  level : ℚ
deriving DecidableEq, Repr

/-- Method VolumeLevel::get. -/
def VolumeLevel.get (v : VolumeLevel) : ℚ := v.level

/-- Default for VolumeLevel: level 1.0. -/
def VolumeLevel.default : VolumeLevel := ⟨1⟩

/-- Enum Volume: Relative(VolumeLevel) or Absolute(VolumeLevel). -/
inductive Volume where
  | Relative (v : VolumeLevel)
  | Absolute (v : VolumeLevel)
deriving DecidableEq, Repr

/-- Enum PlaybackMode: Once, Loop, Despawn, Remove. -/
inductive PlaybackMode where
  | Once
  | Loop
  | Despawn
  | Remove
deriving DecidableEq, Repr

/-- Struct PlaybackSettings from audio.rs. -/
structure PlaybackSettings where
  mode : PlaybackMode
  volume : Volume
  speed : ℚ
  paused : Bool
  spatial : Bool
deriving DecidableEq, Repr

/-- Constant PlaybackSettings::ONCE. -/
def PlaybackSettings.ONCE : PlaybackSettings :=
  { mode := .Once, volume := .Relative ⟨1⟩, speed := 1, paused := false, spatial := false }

/-- Constant PlaybackSettings::LOOP. -/
def PlaybackSettings.LOOP : PlaybackSettings :=
  { mode := .Loop, volume := .Relative ⟨1⟩, speed := 1, paused := false, spatial := false }

/-- Constant PlaybackSettings::DESPAWN. -/
def PlaybackSettings.DESPAWN : PlaybackSettings :=
  { mode := .Despawn, volume := .Relative ⟨1⟩, speed := 1, paused := false, spatial := false }

/-- Constant PlaybackSettings::REMOVE. -/
def PlaybackSettings.REMOVE : PlaybackSettings :=
  { mode := .Remove, volume := .Relative ⟨1⟩, speed := 1, paused := false, spatial := false }

/-- Default for PlaybackSettings: ONCE (the source carries a
TODO questioning whether ONCE/DESPAWN/REMOVE should be the default, but the
code picks ONCE). -/
def PlaybackSettings.default : PlaybackSettings := PlaybackSettings.ONCE

/-- Struct SpatialListener from audio.rs. -/
structure SpatialListener where
  left_ear_offset : Vec3
  right_ear_offset : Vec3
deriving DecidableEq, Repr

/-- Constructor SpatialListener::new(gap): ears on the x axis,
left at Vec3::X * gap / -2.0 and right at Vec3::X * gap / 2.0. -/
def SpatialListener.new (gap : ℚ) : SpatialListener :=
  { left_ear_offset := Vec3.smul (gap / (-2)) Vec3.unitX
    right_ear_offset := Vec3.smul (gap / 2) Vec3.unitX }

/-- Default for SpatialListener: new(4.0), a gap of 4 split symmetrically. -/
def SpatialListener.default : SpatialListener := SpatialListener.new 4

/-- Struct GlobalVolume wrapping a VolumeLevel. -/
structure GlobalVolume where
  volume : VolumeLevel
deriving DecidableEq, Repr

/-- Constructor GlobalVolume::new. -/
def GlobalVolume.new (v : ℚ) : GlobalVolume := ⟨⟨v⟩⟩

/-- Default for GlobalVolume (derived): the default VolumeLevel, level 1.0. -/
def GlobalVolume.default : GlobalVolume := ⟨VolumeLevel.default⟩

/-- Struct SpatialScale wrapping a Vec3. -/
structure SpatialScale where
  scale : Vec3
deriving DecidableEq, Repr

/-- Constructor SpatialScale::new. -/
def SpatialScale.new (s : ℚ) : SpatialScale := ⟨⟨s, s, s⟩⟩

/-- Constructor SpatialScale::new_2d. -/
def SpatialScale.new_2d (s : ℚ) : SpatialScale := ⟨⟨s, s, 0⟩⟩

/-- Default for SpatialScale: Vec3::ONE. -/
def SpatialScale.default : SpatialScale := ⟨Vec3.ONE⟩

/-! ## Rodio backend model

A sink is a backend playback handle.  We record the fields the engine writes
(volume, speed, paused), the queue of appended streams, the backend-reported
`empty()` flag (it evolves on the audio thread; world states quantify over it),
and the full trace of commands written into the sink, which captures the
*order* of the writes. -/

/-- A stream appended to a sink: the decoder of asset `sourceId`, either fed
once or wrapped in `repeat_infinite()`. -/
inductive SinkStream where
  | finite (sourceId : ℕ)
  | repeatInfinite (sourceId : ℕ)
deriving DecidableEq, Repr

/-- A command written into a rodio sink by the engine. -/
inductive SinkCmd where
  | setSpeed (s : ℚ)
  | setVolume (v : ℚ)
  | pause
  | append (st : SinkStream)
deriving DecidableEq, Repr

/-- Non-spatial `rodio::Sink` state as observed through its API. -/
structure RodioSink where
  volume : ℚ
  speed : ℚ
  paused : Bool
  queue : List SinkStream
  empty : Bool
  trace : List SinkCmd
deriving DecidableEq, Repr

/-- Result of a successful Sink::try_new: a fresh sink (volume 1, speed 1,
playing, empty queue, no commands yet). -/
def RodioSink.try_new : RodioSink :=
  { volume := 1, speed := 1, paused := false, queue := [], empty := true, trace := [] }

/-- Method Sink::set_speed. -/
def RodioSink.set_speed (k : RodioSink) (s : ℚ) : RodioSink :=
  { k with speed := s, trace := k.trace ++ [.setSpeed s] }

/-- Method Sink::set_volume. -/
def RodioSink.set_volume (k : RodioSink) (v : ℚ) : RodioSink :=
  { k with volume := v, trace := k.trace ++ [.setVolume v] }

/-- Method Sink::pause. -/
def RodioSink.pause (k : RodioSink) : RodioSink :=
  { k with paused := true, trace := k.trace ++ [.pause] }

/-- Method Sink::append: a sink with a queued source no longer reports empty. -/
def RodioSink.append (k : RodioSink) (st : SinkStream) : RodioSink :=
  { k with queue := k.queue ++ [st], empty := false, trace := k.trace ++ [.append st] }

/-- Spatial `rodio::SpatialSink` state: a sink plus emitter and ear positions. -/
structure SpatialRodioSink where
  volume : ℚ
  speed : ℚ
  paused : Bool
  queue : List SinkStream
  empty : Bool
  trace : List SinkCmd
  emitter : Vec3
  left_ear : Vec3
  right_ear : Vec3
deriving DecidableEq, Repr

/-- Result of a successful SpatialSink::try_new(handle, emitter, left, right). -/
def SpatialRodioSink.try_new (emitter left right : Vec3) : SpatialRodioSink :=
  { volume := 1, speed := 1, paused := false, queue := [], empty := true, trace := []
    emitter := emitter, left_ear := left, right_ear := right }

/-- Method SpatialSink::set_speed. -/
def SpatialRodioSink.set_speed (k : SpatialRodioSink) (s : ℚ) : SpatialRodioSink :=
  { k with speed := s, trace := k.trace ++ [.setSpeed s] }

/-- Method SpatialSink::set_volume. -/
def SpatialRodioSink.set_volume (k : SpatialRodioSink) (v : ℚ) : SpatialRodioSink :=
  { k with volume := v, trace := k.trace ++ [.setVolume v] }

/-- Method SpatialSink::pause. -/
def SpatialRodioSink.pause (k : SpatialRodioSink) : SpatialRodioSink :=
  { k with paused := true, trace := k.trace ++ [.pause] }

/-- Method SpatialSink::append. -/
def SpatialRodioSink.append (k : SpatialRodioSink) (st : SinkStream) : SpatialRodioSink :=
  { k with queue := k.queue ++ [st], empty := false, trace := k.trace ++ [.append st] }

/-- Method SpatialSink::set_emitter_position. -/
def SpatialRodioSink.set_emitter_position (k : SpatialRodioSink) (p : Vec3) : SpatialRodioSink :=
  { k with emitter := p }

/-- Method SpatialSink::set_ears_position. -/
def SpatialRodioSink.set_ears_position (k : SpatialRodioSink) (l r : Vec3) : SpatialRodioSink :=
  { k with left_ear := l, right_ear := r }

/-! ## ECS world model -/

/-- Components of one entity that this subsystem reads or writes: source is
the Handle (an asset id), sink is AudioSink, spatial_sink is SpatialAudioSink;
the two markers are PlaybackDespawnMarker / PlaybackRemoveMarker, their
presence encoded as Bool. -/
structure EntityState where
  source : Option ℕ
  settings : Option PlaybackSettings
  transform : Option GlobalTransform
  listener : Option SpatialListener
  sink : Option RodioSink
  spatial_sink : Option SpatialRodioSink
  despawn_marker : Bool
  remove_marker : Bool
deriving DecidableEq, Repr

/-- An entity with none of this subsystem's components. -/
def EntityState.empty : EntityState :=
  { source := none, settings := none, transform := none, listener := none
    sink := none, spatial_sink := none, despawn_marker := false, remove_marker := false }

/-- The ECS world: an association list of entity id × component record,
in entity iteration order (bevy queries iterate deterministically over the
world's storage order). -/
structure World where
  entities : List (ℕ × EntityState)
deriving DecidableEq, Repr

/-- Messages issued through `warn!` by the audio systems. -/
inductive LogMsg where
  | noAudioDevice
  | multipleListeners (chosen : ℕ)
  | noGlobalTransform
  | errorPlayingSpatialSound
  | errorPlayingSound
deriving DecidableEq, Repr

/-- Struct AudioOutput holding an optional OutputStreamHandle. -/
structure AudioOutput where
  stream_handle : Option Unit

/-- Default for AudioOutput: try to open the default device.  Whether a device
exists is an input from the host (OutputStream::try_default).  On failure the
resource holds no handle and warns that no audio device was found. -/
def AudioOutput.init (device : Option Unit) : AudioOutput × List LogMsg :=
  match device with
  | some h => ({ stream_handle := some h }, [])
  | none => ({ stream_handle := none }, [.noAudioDevice])

/-- Run condition audio_output_available, gating the AudioPlaySet. -/
def audio_output_available (out : AudioOutput) : Bool :=
  out.stream_handle.isSome

/-- Model of SpatialListenerSystemParam: the query over
(Entity, GlobalTransform, SpatialListener) plus the SpatialScale resource. -/
structure ListenerParam where
  listeners : List (ℕ × GlobalTransform × SpatialListener)
  spatial_scale : Vec3

/-- Listener query: every entity that has both a GlobalTransform and a
SpatialListener, in world iteration order. -/
def World.listenerQuery (w : World) : List (ℕ × GlobalTransform × SpatialListener) :=
  w.entities.filterMap fun e =>
    match e.2.transform, e.2.listener with
    | some t, some l => some (e.1, t, l)
    | _, _ => none

/-- Builds the SpatialListenerSystemParam from the world and the SpatialScale
resource. -/
def World.listenerParam (w : World) (scale : Vec3) : ListenerParam :=
  { listeners := w.listenerQuery, spatial_scale := scale }

/-- Method SpatialListenerSystemParam::get_ear_positions: ears of the first listener
(transformed by its `GlobalTransform`, scaled by `SpatialScale`), or the
default `SpatialListener` offsets scaled by `SpatialScale` when no listener
exists. -/
def ListenerParam.get_ear_positions (p : ListenerParam) : Vec3 × Vec3 :=
  match p.listeners with
  | (_, t, l) :: _ =>
    ((t.transform_point l.left_ear_offset).hadamard p.spatial_scale,
     (t.transform_point l.right_ear_offset).hadamard p.spatial_scale)
  | [] =>
    (SpatialListener.default.left_ear_offset.hadamard p.spatial_scale,
     SpatialListener.default.right_ear_offset.hadamard p.spatial_scale)

/-- Filter of query_nonplaying: the entity has a source handle and
PlaybackSettings, and is Without AudioSink and Without SpatialAudioSink. -/
def matchesNonplaying (st : EntityState) : Bool :=
  st.source.isSome && st.settings.isSome && st.sink.isNone && st.spatial_sink.isNone

/-- Body of the play_queued_audio_system loop for one matched entity.
`assets` is the `Assets<Source>` readiness oracle (`audio_sources.get` is
`some` iff ready), `openOk` tells whether `Sink::try_new` /
`SpatialSink::try_new` succeeds for this entity's attempt.  Returns the
entity's components after command application plus the warnings issued.
Mirrors `audio_output.rs` lines 122-234: skip when the asset is unready;
in the spatial branch resolve ears, warn on multiple listeners, resolve the
emitter from the entity's transform (origin + warning when absent), open the
sink, then set speed, volume (Relative × global volume / Absolute as-is),
paused-state, and append the decoder (wrapped in `repeat_infinite` for Loop),
inserting the sink together with the terminal marker demanded by the mode. -/
def processAudioEntity (assets : ℕ → Bool) (gv : GlobalVolume) (listener : ListenerParam)
    (openOk : ℕ → Bool) (id : ℕ) (st : EntityState) : EntityState × List LogMsg :=
  match st.source, st.settings with
  | some h, some settings =>
    if assets h then
      if settings.spatial then
        let ears := listener.get_ear_positions
        let warnMulti : List LogMsg :=
          if listener.listeners.length > 1 then
            match listener.listeners with
            | (lid, _, _) :: _ => [.multipleListeners lid]
            | [] => []
          else []
        let emitterWarn : Vec3 × List LogMsg :=
          match st.transform with
          | some t => (t.translation.hadamard listener.spatial_scale, [])
          | none => (Vec3.ZERO, [.noGlobalTransform])
        if openOk id then
          let sink0 := SpatialRodioSink.try_new emitterWarn.1 ears.1 ears.2
          let sink1 := sink0.set_speed settings.speed
          let sink2 :=
            match settings.volume with
            | .Relative v => sink1.set_volume (v.level * gv.volume.level)
            | .Absolute v => sink1.set_volume v.level
          let sink3 := if settings.paused then sink2.pause else sink2
          match settings.mode with
          | .Loop =>
            ({ st with spatial_sink := some (sink3.append (.repeatInfinite h)) },
             warnMulti ++ emitterWarn.2)
          | .Once =>
            ({ st with spatial_sink := some (sink3.append (.finite h)) },
             warnMulti ++ emitterWarn.2)
          | .Despawn =>
            ({ st with
                 spatial_sink := some (sink3.append (.finite h))
                 despawn_marker := true },
             warnMulti ++ emitterWarn.2)
          | .Remove =>
            ({ st with
                 spatial_sink := some (sink3.append (.finite h))
                 remove_marker := true },
             warnMulti ++ emitterWarn.2)
        else
          (st, warnMulti ++ emitterWarn.2 ++ [.errorPlayingSpatialSound])
      else
        if openOk id then
          let sink0 := RodioSink.try_new
          let sink1 := sink0.set_speed settings.speed
          let sink2 :=
            match settings.volume with
            | .Relative v => sink1.set_volume (v.level * gv.volume.level)
            | .Absolute v => sink1.set_volume v.level
          let sink3 := if settings.paused then sink2.pause else sink2
          match settings.mode with
          | .Loop => ({ st with sink := some (sink3.append (.repeatInfinite h)) }, [])
          | .Once => ({ st with sink := some (sink3.append (.finite h)) }, [])
          | .Despawn =>
            ({ st with
                 sink := some (sink3.append (.finite h))
                 despawn_marker := true }, [])
          | .Remove =>
            ({ st with
                 sink := some (sink3.append (.finite h))
                 remove_marker := true }, [])
        else
          (st, [.errorPlayingSound])
    else (st, [])
  | _, _ => (st, [])

/-- System play_queued_audio_system: return immediately when the device holds no
stream handle; otherwise scan `query_nonplaying` (entities with a source
handle and settings but no sink of either kind) and process each matched
entity.  Commands are deferred, so every entity is processed against the same
input snapshot; the output world carries each entity's post-command state. -/
def play_queued_audio_system (out : AudioOutput) (assets : ℕ → Bool) (gv : GlobalVolume)
    (scale : Vec3) (openOk : ℕ → Bool) (w : World) : World × List LogMsg :=
  match out.stream_handle with
  | none => (w, [])
  | some _ =>
    let listener := w.listenerParam scale
    let results := w.entities.map fun e =>
      if matchesNonplaying e.2 then
        let r := processAudioEntity assets gv listener openOk e.1 e.2
        ((e.1, r.1), r.2)
      else (e, ([] : List LogMsg))
    (⟨results.map Prod.fst⟩, (results.map Prod.snd).flatten)

/-! ## The reaper (`cleanup_finished_audio`) -/

/-- Whether query_nonspatial_despawn matches the entity and its sink reports
empty: an AudioSink with the despawn marker, a source handle, and empty(). -/
def nonspatialDespawnFires (st : EntityState) : Bool :=
  st.despawn_marker && st.source.isSome &&
    (match st.sink with | some k => k.empty | none => false)

/-- Whether query_spatial_despawn matches the entity and its sink reports empty. -/
def spatialDespawnFires (st : EntityState) : Bool :=
  st.despawn_marker && st.source.isSome &&
    (match st.spatial_sink with | some k => k.empty | none => false)

/-- Whether query_nonspatial_remove matches the entity and its sink reports empty. -/
def nonspatialRemoveFires (st : EntityState) : Bool :=
  st.remove_marker && st.source.isSome &&
    (match st.sink with | some k => k.empty | none => false)

/-- Whether query_spatial_remove matches the entity and its sink reports empty. -/
def spatialRemoveFires (st : EntityState) : Bool :=
  st.remove_marker && st.source.isSome &&
    (match st.spatial_sink with | some k => k.empty | none => false)

/-- Effect of removing the bundle (AudioSourceBundle, AudioSink,
PlaybackRemoveMarker): strips the source handle, the playback settings
(AudioSourceBundle is handle + settings), the non-spatial sink and the
remove marker. -/
def stripNonspatialRemove (st : EntityState) : EntityState :=
  { st with source := none, settings := none, sink := none, remove_marker := false }

/-- Effect of removing the bundle (AudioSourceBundle, SpatialAudioSink,
PlaybackRemoveMarker). -/
def stripSpatialRemove (st : EntityState) : EntityState :=
  { st with source := none, settings := none, spatial_sink := none, remove_marker := false }

/-- The combined effect of the four reaper queries on one entity: all four
query matches are evaluated on the same world snapshot (commands are
deferred); a firing despawn query despawns the entity (`none`), firing remove
queries strip the audio components. -/
def reapEntity (st : EntityState) : Option EntityState :=
  if nonspatialDespawnFires st || spatialDespawnFires st then none
  else
    let st1 := if nonspatialRemoveFires st then stripNonspatialRemove st else st
    let st2 := if spatialRemoveFires st then stripSpatialRemove st1 else st1
    some st2

/-- System cleanup_finished_audio: sweep the four (marker × spatiality) queries and
apply the terminal action to every entity whose sink reports empty. -/
def cleanup_finished_audio (w : World) : World :=
  ⟨w.entities.filterMap fun e => (reapEntity e.2).map fun st => (e.1, st)⟩

/-! ## Position sync -/

/-- System update_emitter_positions: for every entity whose GlobalTransform
changed this frame (`changed` oracle) and that carries a spatial sink, push
the scaled translation into the sink. -/
def update_emitter_positions (changed : ℕ → Bool) (scale : Vec3) (w : World) : World :=
  ⟨w.entities.map fun e =>
    match e.2.transform, e.2.spatial_sink with
    | some t, some k =>
      if changed e.1 then
        let k2 := k.set_emitter_position (t.translation.hadamard scale)
        (e.1, { e.2 with spatial_sink := some k2 })
      else e
    | _, _ => e⟩

/-- System update_listener_positions: short-circuit unless the SpatialScale
resource or some listener changed; otherwise recompute the (first-found)
listener's ear positions and push them into every live spatial sink. -/
def update_listener_positions (scaleChanged : Bool) (listenerChanged : Bool)
    (scale : Vec3) (w : World) : World :=
  if !scaleChanged && !listenerChanged then w
  else
    let ears := (w.listenerParam scale).get_ear_positions
    ⟨w.entities.map fun e =>
      match e.2.spatial_sink with
      | some k =>
        (e.1, { e.2 with spatial_sink := some (k.set_ears_position ears.1 ears.2) })
      | none => e⟩

/-! ## Scheduling (`lib.rs`)

`AudioPlugin::build` configures `AudioPlaySet` in `PostUpdate` with
`.run_if(audio_output_available)` and `.after(TransformPropagate)`.
`AddAudioSource::add_audio_source` adds the four systems, each with only
`.in_set(AudioPlaySet)` — it declares no ordering constraint between any two
of them, so bevy's scheduler is free to execute them in any order. -/

/-- Names of the four systems add_audio_source registers in PostUpdate. -/
inductive AudioSystem where
  | playQueuedAudio
  | cleanupFinishedAudio
  | updateEmitterPositions
  | updateListenerPositions
deriving DecidableEq, Repr

/-- Systems added by add_audio_source, in registration order. -/
def addAudioSourceSystems : List AudioSystem :=
  [.playQueuedAudio, .cleanupFinishedAudio, .updateEmitterPositions, .updateListenerPositions]

/-- Ordering edges (before/after) that add_audio_source declares among the
four audio systems: there are none (each call uses only
`.in_set(AudioPlaySet)`; the set-level `.after(TransformPropagate)` orders the
whole set against transform propagation, not the audio systems against each
other). -/
def audioSystemConstraints : List (AudioSystem × AudioSystem) := []

/-- An execution order of the audio set is valid when it is a permutation of
the registered systems and respects every declared ordering edge. -/
def validExecutionOrder (order : List AudioSystem) : Prop :=
  order.Perm addAudioSourceSystems ∧
    ∀ c ∈ audioSystemConstraints, order.indexOf c.1 < order.indexOf c.2

instance : DecidablePred validExecutionOrder := fun o =>
  inferInstanceAs (Decidable (o.Perm addAudioSourceSystems ∧
    ∀ c ∈ audioSystemConstraints, o.indexOf c.1 < o.indexOf c.2))

/-- Run-condition gate on AudioPlaySet: a system of the set runs only
when `audio_output_available` holds, otherwise the frame leaves the world
untouched. -/
def runGated (out : AudioOutput) (sys : World → World) (w : World) : World :=
  if audio_output_available out then sys w else w

/-! ## Helper lemmas -/

/-- In a world whose entity ids are distinct, an id determines its components. -/
theorem key_unique {es : List (ℕ × EntityState)} (hnd : (es.map Prod.fst).Nodup)
    {id : ℕ} {a b : EntityState} (ha : (id, a) ∈ es) (hb : (id, b) ∈ es) : a = b := by
  induction es with
  | nil => cases ha
  | cons e es ih =>
    simp only [List.map_cons, List.nodup_cons] at hnd
    rcases List.mem_cons.mp ha with ha1 | ha2
    · rcases List.mem_cons.mp hb with hb1 | hb2
      · exact congrArg Prod.snd (ha1.trans hb1.symm)
      · have hid : e.1 = id := (congrArg Prod.fst ha1).symm
        exact absurd (List.mem_map_of_mem Prod.fst hb2) (hid ▸ hnd.1)
    · rcases List.mem_cons.mp hb with hb1 | hb2
      · have hid : e.1 = id := (congrArg Prod.fst hb1).symm
        exact absurd (List.mem_map_of_mem Prod.fst ha2) (hid ▸ hnd.1)
      · exact ih hnd.2 ha2 hb2

/-- With a live device, the orchestrator maps each entity through
`processAudioEntity` exactly when it matches `query_nonplaying`. -/
theorem play_queued_entities_eq (out : AudioOutput) (assets : ℕ → Bool)
    (gv : GlobalVolume) (scale : Vec3) (openOk : ℕ → Bool) (w : World)
    (hout : out.stream_handle = some ()) :
    (play_queued_audio_system out assets gv scale openOk w).1.entities =
      w.entities.map (fun e =>
        if matchesNonplaying e.2 then
          (e.1, (processAudioEntity assets gv (w.listenerParam scale) openOk e.1 e.2).1)
        else e) := by
  unfold play_queued_audio_system
  rw [hout]
  simp only [List.map_map]
  apply List.map_congr_left
  intro e _
  by_cases hm : matchesNonplaying e.2 <;> simp [hm]

/-- With a live device, a warning issued while processing a matched entity is
part of the orchestrator's log. -/
theorem play_queued_log_mem (out : AudioOutput) (assets : ℕ → Bool)
    (gv : GlobalVolume) (scale : Vec3) (openOk : ℕ → Bool) (w : World)
    {id : ℕ} {st : EntityState} {m : LogMsg}
    (hout : out.stream_handle = some ())
    (hmem : (id, st) ∈ w.entities) (hm : matchesNonplaying st = true)
    (hlog : m ∈ (processAudioEntity assets gv (w.listenerParam scale) openOk id st).2) :
    m ∈ (play_queued_audio_system out assets gv scale openOk w).2 := by
  unfold play_queued_audio_system
  rw [hout]
  simp only [List.map_map, List.mem_flatten]
  refine ⟨(processAudioEntity assets gv (w.listenerParam scale) openOk id st).2, ?_, hlog⟩
  have := List.mem_map_of_mem
    (Prod.snd ∘ fun e : ℕ × EntityState =>
      if matchesNonplaying e.2 then
        let r := processAudioEntity assets gv (w.listenerParam scale) openOk e.1 e.2
        ((e.1, r.1), r.2)
      else (e, ([] : List LogMsg))) hmem
  simpa [hm] using this

/-- With a live device, a matched entity's post-command state is in the
orchestrator's output world. -/
theorem mem_play_queued_of_matches (out : AudioOutput) (assets : ℕ → Bool)
    (gv : GlobalVolume) (scale : Vec3) (openOk : ℕ → Bool) (w : World)
    {id : ℕ} {st : EntityState}
    (hout : out.stream_handle = some ())
    (hmem : (id, st) ∈ w.entities) (hm : matchesNonplaying st = true) :
    (id, (processAudioEntity assets gv (w.listenerParam scale) openOk id st).1) ∈
      (play_queued_audio_system out assets gv scale openOk w).1.entities := by
  rw [play_queued_entities_eq out assets gv scale openOk w hout]
  have := List.mem_map_of_mem (fun e : ℕ × EntityState =>
    if matchesNonplaying e.2 then
      (e.1, (processAudioEntity assets gv (w.listenerParam scale) openOk e.1 e.2).1)
    else e) hmem
  simpa [hm] using this

/-- An entity that does not match `query_nonplaying` (in particular any entity
already carrying a sink) passes through the orchestrator unchanged, whether or
not the device is available. -/
theorem mem_play_queued_of_not_matches (out : AudioOutput) (assets : ℕ → Bool)
    (gv : GlobalVolume) (scale : Vec3) (openOk : ℕ → Bool) (w : World)
    {id : ℕ} {st : EntityState}
    (hmem : (id, st) ∈ w.entities) (hm : matchesNonplaying st = false) :
    (id, st) ∈ (play_queued_audio_system out assets gv scale openOk w).1.entities := by
  rcases hout : out.stream_handle with _ | u
  · unfold play_queued_audio_system
    rw [hout]
    exact hmem
  · cases u
    rw [play_queued_entities_eq out assets gv scale openOk w hout]
    have := List.mem_map_of_mem (fun e : ℕ × EntityState =>
      if matchesNonplaying e.2 then
        (e.1, (processAudioEntity assets gv (w.listenerParam scale) openOk e.1 e.2).1)
      else e) hmem
    simpa [hm] using this

/-- An entity carrying either kind of sink fails the `query_nonplaying`
filter. -/
theorem not_matches_of_sinked {st : EntityState}
    (h : st.sink.isSome = true ∨ st.spatial_sink.isSome = true) :
    matchesNonplaying st = false := by
  rcases h with h | h
  · have hn : st.sink.isNone = false := by
      cases hs : st.sink with
      | none => rw [hs] at h; cases h
      | some k => rfl
    simp [matchesNonplaying, hn]
  · have hn : st.spatial_sink.isNone = false := by
      cases hs : st.spatial_sink with
      | none => rw [hs] at h; cases h
      | some k => rfl
    simp [matchesNonplaying, hn]

/-- An entity with neither terminal marker is untouched by every reaper
query. -/
theorem reapEntity_no_marker {st : EntityState}
    (hd : st.despawn_marker = false) (hr : st.remove_marker = false) :
    reapEntity st = some st := by
  unfold reapEntity nonspatialDespawnFires spatialDespawnFires
    nonspatialRemoveFires spatialRemoveFires
  simp [hd, hr]

/-- An entity without a source handle is untouched by every reaper query (all
four queries require the `Handle` component). -/
theorem reapEntity_source_none {st : EntityState} (h : st.source = none) :
    reapEntity st = some st := by
  unfold reapEntity nonspatialDespawnFires spatialDespawnFires
    nonspatialRemoveFires spatialRemoveFires
  simp [h]

/-- A reaped survivor is either the unchanged entity or has been stripped of
its source handle. -/
theorem reapEntity_some_cases {st st' : EntityState} (h : reapEntity st = some st') :
    st' = st ∨ st'.source = none := by
  unfold reapEntity at h
  cases hd : (nonspatialDespawnFires st || spatialDespawnFires st)
  · rw [hd] at h
    simp only [Bool.false_eq_true, if_false] at h
    cases hnr : nonspatialRemoveFires st <;> cases hsr : spatialRemoveFires st <;>
      simp only [hnr, hsr, Bool.false_eq_true, if_false, if_true,
        Option.some.injEq] at h
    · exact Or.inl h.symm
    · exact Or.inr (by rw [← h]; rfl)
    · exact Or.inr (by rw [← h]; rfl)
    · exact Or.inr (by rw [← h]; rfl)
  · rw [hd] at h
    simp only [if_true] at h
    cases h

/-- The terminal action is idempotent at the level of one entity: a reaped
survivor is inert for the next sweep. -/
theorem reapEntity_idem {st st' : EntityState} (h : reapEntity st = some st') :
    reapEntity st' = some st' := by
  rcases reapEntity_some_cases h with h1 | h1
  · subst h1; exact h
  · exact reapEntity_source_none h1

/-- A matched entity whose source asset has not finished loading is skipped:
no component change, no log. -/
theorem processAudioEntity_not_ready (assets : ℕ → Bool) (gv : GlobalVolume)
    (listener : ListenerParam) (openOk : ℕ → Bool) (id : ℕ) {st : EntityState} {h : ℕ}
    (hsrc : st.source = some h) (hready : assets h = false) :
    processAudioEntity assets gv listener openOk id st = (st, []) := by
  unfold processAudioEntity
  rw [hsrc]
  cases hset : st.settings with
  | none => rfl
  | some s => simp [hready]

/-- Processing an entity whose settings demand mode Once or Loop attaches no
terminal marker: both markers survive unchanged. -/
theorem processAudioEntity_markers_unchanged (assets : ℕ → Bool) (gv : GlobalVolume)
    (listener : ListenerParam) (openOk : ℕ → Bool) (id : ℕ) {st : EntityState}
    (hmode : ∀ s, st.settings = some s → s.mode = PlaybackMode.Once ∨ s.mode = PlaybackMode.Loop) :
    (processAudioEntity assets gv listener openOk id st).1.despawn_marker = st.despawn_marker ∧
    (processAudioEntity assets gv listener openOk id st).1.remove_marker = st.remove_marker := by
  unfold processAudioEntity
  cases hsrc : st.source with
  | none => refine ⟨?_, ?_⟩ <;> (cases st.settings <;> rfl)
  | some h =>
    cases hset : st.settings with
    | none => exact ⟨rfl, rfl⟩
    | some s =>
      rcases hmode s hset with hm | hm <;>
        cases hrdy : assets h <;> cases hsp : s.spatial <;> cases hok : openOk id <;>
          simp [hrdy, hsp, hok, hm]

/-- Processing never touches the non-spatial sink in the spatial branch and
never touches the spatial sink in the non-spatial branch: at least one of the
two sink slots is left as it was. -/
theorem processAudioEntity_one_sink (assets : ℕ → Bool) (gv : GlobalVolume)
    (listener : ListenerParam) (openOk : ℕ → Bool) (id : ℕ) (st : EntityState) :
    (processAudioEntity assets gv listener openOk id st).1.sink = st.sink ∨
    (processAudioEntity assets gv listener openOk id st).1.spatial_sink = st.spatial_sink := by
  unfold processAudioEntity
  cases hsrc : st.source with
  | none => exact Or.inl (by cases st.settings <;> rfl)
  | some h =>
    cases hset : st.settings with
    | none => exact Or.inl rfl
    | some s =>
      cases hrdy : assets h with
      | false => exact Or.inl (by simp [hrdy])
      | true =>
        cases hsp : s.spatial with
        | true =>
          refine Or.inl ?_
          cases hok : openOk id with
          | false => simp [hrdy, hsp, hok]
          | true => cases hm : s.mode <;> simp [hrdy, hsp, hok, hm]
        | false =>
          refine Or.inr ?_
          cases hok : openOk id with
          | false => simp [hrdy, hsp, hok]
          | true => cases hm : s.mode <;> simp [hrdy, hsp, hok, hm]

/-- A matched entity starts with neither kind of sink. -/
theorem matchesNonplaying_sinks_none {st : EntityState} (h : matchesNonplaying st = true) :
    st.sink = none ∧ st.spatial_sink = none := by
  unfold matchesNonplaying at h
  simp only [Bool.and_eq_true, Option.isNone_iff_eq_none] at h
  exact ⟨h.1.2, h.2⟩

/-- An entity with a source handle and settings but no sink of either kind
matches `query_nonplaying`. -/
theorem matchesNonplaying_of_components {st : EntityState} {h : ℕ} {s : PlaybackSettings}
    (hsrc : st.source = some h) (hset : st.settings = some s)
    (hsink : st.sink = none) (hssk : st.spatial_sink = none) :
    matchesNonplaying st = true := by
  simp [matchesNonplaying, hsrc, hset, hsink, hssk]

/-- With the asset ready and the backend open succeeding, processing installs
exactly the sink kind selected by the spatial flag, leaving the other slot as
it was. -/
theorem processAudioEntity_creates_sink (assets : ℕ → Bool) (gv : GlobalVolume)
    (listener : ListenerParam) (openOk : ℕ → Bool) (id : ℕ) {st : EntityState}
    {h : ℕ} {s : PlaybackSettings}
    (hsrc : st.source = some h) (hset : st.settings = some s)
    (hready : assets h = true) (hok : openOk id = true) :
    (s.spatial = false →
      (processAudioEntity assets gv listener openOk id st).1.sink.isSome = true ∧
      (processAudioEntity assets gv listener openOk id st).1.spatial_sink = st.spatial_sink) ∧
    (s.spatial = true →
      (processAudioEntity assets gv listener openOk id st).1.spatial_sink.isSome = true ∧
      (processAudioEntity assets gv listener openOk id st).1.sink = st.sink) := by
  unfold processAudioEntity
  constructor <;> intro hsp <;> cases hm : s.mode <;>
    simp [hsrc, hset, hready, hok, hsp, hm]

/-- When the backend fails to open the sink, processing leaves the entity
untouched and only warns: one sound-error warning for the non-spatial branch,
a spatial-sound-error warning somewhere in the log for the spatial branch. -/
theorem processAudioEntity_open_fail (assets : ℕ → Bool) (gv : GlobalVolume)
    (listener : ListenerParam) (openOk : ℕ → Bool) (id : ℕ) {st : EntityState}
    {h : ℕ} {s : PlaybackSettings}
    (hsrc : st.source = some h) (hset : st.settings = some s)
    (hready : assets h = true) (hfail : openOk id = false) :
    (processAudioEntity assets gv listener openOk id st).1 = st ∧
    (s.spatial = false →
      (processAudioEntity assets gv listener openOk id st).2 = [LogMsg.errorPlayingSound]) ∧
    (s.spatial = true →
      LogMsg.errorPlayingSpatialSound ∈
        (processAudioEntity assets gv listener openOk id st).2) := by
  unfold processAudioEntity
  refine ⟨?_, ?_, ?_⟩
  · cases hsp : s.spatial <;> simp [hsrc, hset, hready, hfail, hsp]
  · intro hsp; simp [hsrc, hset, hready, hfail, hsp]
  · intro hsp; simp [hsrc, hset, hready, hfail, hsp]

/-! ## Concrete witness data -/

/-- Oracle: every asset is decoded and ready. -/
def exReady : ℕ → Bool := fun _ => true

/-- Oracle: no asset is ready yet. -/
def exUnready : ℕ → Bool := fun _ => false

/-- Oracle: every backend sink-open attempt succeeds. -/
def exOpen : ℕ → Bool := fun _ => true

/-- Oracle: every backend sink-open attempt fails. -/
def exOpenFail : ℕ → Bool := fun _ => false

/-- A listener param with no listeners and unit scale. -/
def exListenerNone : ListenerParam := { listeners := [], spatial_scale := Vec3.ONE }

/-- An entity holding a fresh playback request with default settings. -/
def exEntity : EntityState :=
  { EntityState.empty with source := some 0, settings := some PlaybackSettings.default }

/-- A one-entity world holding a fresh default playback request. -/
def exWorld : World := ⟨[(0, exEntity)]⟩

/-- A device output whose initialization succeeded. -/
def exOut : AudioOutput := ⟨some ()⟩

/-- A device output whose initialization failed (no device). -/
def exOutNone : AudioOutput := ⟨none⟩

/-- An entity that already carries a live non-spatial sink. -/
def exSinked : EntityState :=
  { EntityState.empty with
      source := some 0
      settings := some PlaybackSettings.default
      sink := some RodioSink.try_new }

/-- A one-entity world whose entity already carries a sink. -/
def exWorldSinked : World := ⟨[(0, exSinked)]⟩

/-! ## Claims -/

/-- C8: if no audio device is found at initialization, `AudioOutput` holds no
stream handle and logs a warning, `audio_output_available` is false, a direct
orchestrator call returns immediately leaving the world and log untouched, and
every system gated on the availability predicate (in particular the reaper) is
a no-op for as long as that resource lives. -/
theorem c8_no_device_no_op (out : AudioOutput) (hnone : out.stream_handle = none) :
    AudioOutput.init none = ({ stream_handle := none }, [LogMsg.noAudioDevice]) ∧
    audio_output_available out = false ∧
    (∀ assets gv scale openOk w,
      play_queued_audio_system out assets gv scale openOk w = (w, [])) ∧
    (∀ sys w, runGated out sys w = w) := by
  refine ⟨rfl, ?_, ?_, ?_⟩
  · simp [audio_output_available, hnone]
  · intro assets gv scale openOk w
    unfold play_queued_audio_system
    rw [hnone]
  · intro sys w
    unfold runGated audio_output_available
    rw [hnone]
    rfl

/-- C8 witness: the deviceless output gates the reaper into a no-op on a
concrete world. -/
theorem c8_no_device_no_op_witness :
    exOutNone.stream_handle = none ∧
    runGated exOutNone cleanup_finished_audio exWorld = exWorld :=
  ⟨rfl, (c8_no_device_no_op exOutNone rfl).2.2.2 cleanup_finished_audio exWorld⟩

/-- C9 counterexample: the claim says the three passes execute in the fixed
order orchestrator → position sync → reaper, but `add_audio_source` declares
no ordering constraint among the audio systems, so the execution order putting
the reaper first is valid. -/
theorem c9_counterexample :
    validExecutionOrder
      [AudioSystem.cleanupFinishedAudio, AudioSystem.updateEmitterPositions,
        AudioSystem.updateListenerPositions, AudioSystem.playQueuedAudio] ∧
    [AudioSystem.cleanupFinishedAudio, AudioSystem.updateEmitterPositions,
        AudioSystem.updateListenerPositions, AudioSystem.playQueuedAudio].indexOf
        AudioSystem.cleanupFinishedAudio <
      [AudioSystem.cleanupFinishedAudio, AudioSystem.updateEmitterPositions,
        AudioSystem.updateListenerPositions, AudioSystem.playQueuedAudio].indexOf
        AudioSystem.playQueuedAudio := by
  refine ⟨⟨by decide, ?_⟩, by decide⟩
  intro c hc
  exact absurd hc (List.not_mem_nil c)

/-- C9 (amended): the four audio systems all belong to `AudioPlaySet` in
`PostUpdate`, but no relative order among them is constrained — every
permutation of the registered systems is a valid execution order, so the
orchestrator-first sequence is possible but not guaranteed. -/
theorem c9_no_order_constraints (order : List AudioSystem)
    (hp : order.Perm addAudioSourceSystems) : validExecutionOrder order :=
  ⟨hp, fun c hc => absurd hc (List.not_mem_nil c)⟩

/-- C9 witness: the registration order itself is a valid execution order. -/
theorem c9_no_order_constraints_witness :
    validExecutionOrder
      [AudioSystem.playQueuedAudio, AudioSystem.cleanupFinishedAudio,
        AudioSystem.updateEmitterPositions, AudioSystem.updateListenerPositions] :=
  c9_no_order_constraints _ (by decide)

/-- C10: `PlaybackSettings::default()` is `PlaybackSettings::ONCE` — mode Once,
volume Relative(1.0), speed 1.0, not paused, not spatial — so orchestrating a
default request attaches no terminal marker, and the resulting entity is
untouched by the reaper (its sink lingers). -/
theorem c10_default_is_once (assets : ℕ → Bool) (gv : GlobalVolume)
    (listener : ListenerParam) (openOk : ℕ → Bool) (id : ℕ) (st : EntityState)
    (hset : st.settings = some PlaybackSettings.default)
    (hd : st.despawn_marker = false) (hr : st.remove_marker = false) :
    PlaybackSettings.default = PlaybackSettings.ONCE ∧
    PlaybackSettings.default.mode = PlaybackMode.Once ∧
    PlaybackSettings.default.volume = Volume.Relative ⟨1⟩ ∧
    PlaybackSettings.default.speed = 1 ∧
    PlaybackSettings.default.paused = false ∧
    PlaybackSettings.default.spatial = false ∧
    (processAudioEntity assets gv listener openOk id st).1.despawn_marker = false ∧
    (processAudioEntity assets gv listener openOk id st).1.remove_marker = false ∧
    reapEntity (processAudioEntity assets gv listener openOk id st).1 =
      some (processAudioEntity assets gv listener openOk id st).1 := by
  have hmode : ∀ s, st.settings = some s →
      s.mode = PlaybackMode.Once ∨ s.mode = PlaybackMode.Loop := by
    intro s hs
    rw [hset] at hs
    cases Option.some.inj hs
    exact Or.inl rfl
  have hmk := processAudioEntity_markers_unchanged assets gv listener openOk id hmode
  refine ⟨rfl, rfl, rfl, rfl, rfl, rfl, hmk.1.trans hd, hmk.2.trans hr, ?_⟩
  exact reapEntity_no_marker (hmk.1.trans hd) (hmk.2.trans hr)

/-- C10 witness: the default-request entity keeps both markers clear through
one orchestration pass at concrete inputs. -/
theorem c10_default_is_once_witness :
    exEntity.settings = some PlaybackSettings.default ∧
    (processAudioEntity exReady GlobalVolume.default exListenerNone exOpen 0
      exEntity).1.despawn_marker = false :=
  ⟨rfl, (c10_default_is_once exReady GlobalVolume.default exListenerNone exOpen 0
    exEntity rfl rfl rfl).2.2.2.2.2.2.1⟩

/-- C2: an entity already carrying a sink (of either kind) fails the
`query_nonplaying` filter, passes through the orchestrator unchanged (so a
sink is created at most once per request), and one orchestration pass
preserves the invariant that no entity carries both a spatial and a
non-spatial sink. -/
theorem c2_sink_exclusion (out : AudioOutput) (assets : ℕ → Bool) (gv : GlobalVolume)
    (scale : Vec3) (openOk : ℕ → Bool) (w : World) {id : ℕ} {st : EntityState}
    (hmem : (id, st) ∈ w.entities)
    (hsink : st.sink.isSome = true ∨ st.spatial_sink.isSome = true) :
    matchesNonplaying st = false ∧
    (id, st) ∈ (play_queued_audio_system out assets gv scale openOk w).1.entities ∧
    ((∀ e ∈ w.entities, e.2.sink.isSome = false ∨ e.2.spatial_sink.isSome = false) →
      ∀ e ∈ (play_queued_audio_system out assets gv scale openOk w).1.entities,
        e.2.sink.isSome = false ∨ e.2.spatial_sink.isSome = false) := by
  have hnm := not_matches_of_sinked hsink
  refine ⟨hnm, mem_play_queued_of_not_matches out assets gv scale openOk w hmem hnm, ?_⟩
  intro hall e' he'
  rcases hout : out.stream_handle with _ | u
  · unfold play_queued_audio_system at he'
    rw [hout] at he'
    exact hall e' he'
  · cases u
    rw [play_queued_entities_eq out assets gv scale openOk w hout] at he'
    rcases List.mem_map.mp he' with ⟨e, he, rfl⟩
    by_cases hm : matchesNonplaying e.2
    · rcases processAudioEntity_one_sink assets gv (w.listenerParam scale) openOk e.1 e.2
        with h1 | h1
      · left
        simp only [hm, if_true]
        rw [h1, (matchesNonplaying_sinks_none hm).1]
        rfl
      · right
        simp only [hm, if_true]
        rw [h1, (matchesNonplaying_sinks_none hm).2]
        rfl
    · simp only [Bool.not_eq_true] at hm
      simp only [hm, Bool.false_eq_true, if_false]
      exact hall e he

/-- C2 witness: a concrete sinked entity survives an orchestration pass
untouched. -/
theorem c2_sink_exclusion_witness :
    exSinked.sink.isSome = true ∧
    (0, exSinked) ∈ (play_queued_audio_system exOut exReady GlobalVolume.default
      Vec3.ONE exOpen exWorldSinked).1.entities :=
  ⟨rfl, (c2_sink_exclusion exOut exReady GlobalVolume.default Vec3.ONE exOpen
    exWorldSinked (List.mem_cons_self _ _) (Or.inl rfl)).2.1⟩

/-- C6: for a request whose asset is not yet decoded, one orchestration pass
leaves the entity exactly as it was (no sink, no markers, nothing attached);
as soon as the asset is ready (and the backend opens), the same pass installs
the sink selected by the spatial flag — i.e. the entity acquires its sink on
the first pass after the asset becomes ready. -/
theorem c6_unready_skipped_then_played (out : AudioOutput) (assets : ℕ → Bool)
    (gv : GlobalVolume) (scale : Vec3) (openOk : ℕ → Bool) (w : World)
    {id : ℕ} {st : EntityState} {h : ℕ} {s : PlaybackSettings}
    (hout : out.stream_handle = some ())
    (hmem : (id, st) ∈ w.entities)
    (hsrc : st.source = some h) (hset : st.settings = some s)
    (hsink : st.sink = none) (hssk : st.spatial_sink = none) :
    (assets h = false →
      (id, st) ∈ (play_queued_audio_system out assets gv scale openOk w).1.entities) ∧
    (assets h = true → openOk id = true →
      ∃ st', (id, st') ∈ (play_queued_audio_system out assets gv scale openOk w).1.entities ∧
        (s.spatial = false → st'.sink.isSome = true ∧ st'.spatial_sink = none) ∧
        (s.spatial = true → st'.spatial_sink.isSome = true ∧ st'.sink = none)) := by
  have hmatch := matchesNonplaying_of_components hsrc hset hsink hssk
  constructor
  · intro hunready
    have hmm := mem_play_queued_of_matches out assets gv scale openOk w hout hmem hmatch
    rwa [processAudioEntity_not_ready assets gv (w.listenerParam scale) openOk id hsrc
      hunready] at hmm
  · intro hready hok
    refine ⟨(processAudioEntity assets gv (w.listenerParam scale) openOk id st).1,
      mem_play_queued_of_matches out assets gv scale openOk w hout hmem hmatch, ?_, ?_⟩
    · intro hsp
      rcases (processAudioEntity_creates_sink assets gv (w.listenerParam scale) openOk id
        hsrc hset hready hok).1 hsp with ⟨h1, h2⟩
      exact ⟨h1, h2.trans hssk⟩
    · intro hsp
      rcases (processAudioEntity_creates_sink assets gv (w.listenerParam scale) openOk id
        hsrc hset hready hok).2 hsp with ⟨h1, h2⟩
      exact ⟨h1, h2.trans hsink⟩

/-- C6 witness: with the asset unready the concrete entity is untouched; one
pass after readiness it carries a non-spatial sink. -/
theorem c6_unready_skipped_then_played_witness :
    (0, exEntity) ∈ (play_queued_audio_system exOut exUnready GlobalVolume.default
      Vec3.ONE exOpen exWorld).1.entities ∧
    (∃ st', (0, st') ∈ (play_queued_audio_system exOut exReady GlobalVolume.default
        Vec3.ONE exOpen exWorld).1.entities ∧
      (PlaybackSettings.default.spatial = false →
        st'.sink.isSome = true ∧ st'.spatial_sink = none)) := by
  have h1 := c6_unready_skipped_then_played exOut exUnready GlobalVolume.default
    Vec3.ONE exOpen exWorld rfl (List.mem_cons_self _ _) rfl rfl rfl rfl
  have h2 := c6_unready_skipped_then_played exOut exReady GlobalVolume.default
    Vec3.ONE exOpen exWorld rfl (List.mem_cons_self _ _) rfl rfl rfl rfl
  refine ⟨h1.1 rfl, ?_⟩
  rcases h2.2 rfl rfl with ⟨st', hm, hns, _⟩
  exact ⟨st', hm, hns⟩

/-- C7: when the backend fails to open the sink, the orchestrator warns
(sound-error in the non-spatial branch, spatial-sound-error in the spatial
branch), leaves the entity's components exactly as they were — no sink, no
marker — and the entity still matches `query_nonplaying`, so the next frame's
pass retries it. -/
theorem c7_open_failure_retries (out : AudioOutput) (assets : ℕ → Bool)
    (gv : GlobalVolume) (scale : Vec3) (openOk : ℕ → Bool) (w : World)
    {id : ℕ} {st : EntityState} {h : ℕ} {s : PlaybackSettings}
    (hout : out.stream_handle = some ())
    (hmem : (id, st) ∈ w.entities)
    (hsrc : st.source = some h) (hset : st.settings = some s)
    (hsink : st.sink = none) (hssk : st.spatial_sink = none)
    (hready : assets h = true) (hfail : openOk id = false) :
    (processAudioEntity assets gv (w.listenerParam scale) openOk id st).1 = st ∧
    (id, st) ∈ (play_queued_audio_system out assets gv scale openOk w).1.entities ∧
    matchesNonplaying st = true ∧
    (s.spatial = false →
      LogMsg.errorPlayingSound ∈ (play_queued_audio_system out assets gv scale openOk w).2) ∧
    (s.spatial = true →
      LogMsg.errorPlayingSpatialSound ∈
        (play_queued_audio_system out assets gv scale openOk w).2) := by
  have hmatch := matchesNonplaying_of_components hsrc hset hsink hssk
  have hpf := processAudioEntity_open_fail assets gv (w.listenerParam scale) openOk id
    hsrc hset hready hfail
  have hmm := mem_play_queued_of_matches out assets gv scale openOk w hout hmem hmatch
  rw [hpf.1] at hmm
  refine ⟨hpf.1, hmm, hmatch, ?_, ?_⟩
  · intro hsp
    refine play_queued_log_mem out assets gv scale openOk w hout hmem hmatch ?_
    rw [hpf.2.1 hsp]
    exact List.mem_cons_self _ _
  · intro hsp
    exact play_queued_log_mem out assets gv scale openOk w hout hmem hmatch (hpf.2.2 hsp)

/-- C7 witness: with a failing backend the concrete default request stays
matched and the sound-error warning is logged. -/
theorem c7_open_failure_retries_witness :
    (0, exEntity) ∈ (play_queued_audio_system exOut exReady GlobalVolume.default
      Vec3.ONE exOpenFail exWorld).1.entities ∧
    LogMsg.errorPlayingSound ∈ (play_queued_audio_system exOut exReady
      GlobalVolume.default Vec3.ONE exOpenFail exWorld).2 := by
  have hc := c7_open_failure_retries exOut exReady GlobalVolume.default Vec3.ONE
    exOpenFail exWorld rfl (List.mem_cons_self _ _) rfl rfl rfl rfl rfl rfl
  exact ⟨hc.2.1, hc.2.2.2.1 rfl⟩

/-- C1: the freshly opened sink receives its settings in the fixed command
order set_speed, set_volume, (pause when requested), append; the volume
written is `v.get() * global_volume.get()` for `Relative(v)` and `v.get()` for
`Absolute(v)`; and the value is captured at creation time: an entity that
already holds a sink passes through every later orchestration pass untouched,
whatever the global volume then is. -/
theorem c1_sink_configuration_order (assets : ℕ → Bool) (gv : GlobalVolume)
    (listener : ListenerParam) (openOk : ℕ → Bool) (id : ℕ) {st : EntityState}
    {h : ℕ} {s : PlaybackSettings}
    (hsrc : st.source = some h) (hset : st.settings = some s)
    (hready : assets h = true) (hok : openOk id = true) :
    (s.spatial = false → ∃ k,
      (processAudioEntity assets gv listener openOk id st).1.sink = some k ∧
      k.trace =
        [SinkCmd.setSpeed s.speed,
         SinkCmd.setVolume (match s.volume with
           | Volume.Relative v => v.get * gv.volume.get
           | Volume.Absolute v => v.get)] ++
        (if s.paused = true then [SinkCmd.pause] else []) ++
        [SinkCmd.append (match s.mode with
           | PlaybackMode.Loop => SinkStream.repeatInfinite h
           | _ => SinkStream.finite h)] ∧
      k.volume = (match s.volume with
        | Volume.Relative v => v.get * gv.volume.get
        | Volume.Absolute v => v.get) ∧
      k.speed = s.speed ∧ k.paused = s.paused) ∧
    (s.spatial = true → ∃ k,
      (processAudioEntity assets gv listener openOk id st).1.spatial_sink = some k ∧
      k.trace =
        [SinkCmd.setSpeed s.speed,
         SinkCmd.setVolume (match s.volume with
           | Volume.Relative v => v.get * gv.volume.get
           | Volume.Absolute v => v.get)] ++
        (if s.paused = true then [SinkCmd.pause] else []) ++
        [SinkCmd.append (match s.mode with
           | PlaybackMode.Loop => SinkStream.repeatInfinite h
           | _ => SinkStream.finite h)] ∧
      k.volume = (match s.volume with
        | Volume.Relative v => v.get * gv.volume.get
        | Volume.Absolute v => v.get) ∧
      k.speed = s.speed ∧ k.paused = s.paused) ∧
    (∀ out2 assets2 gv2 scale2 openOk2 (w2 : World) (id2 : ℕ) (st2 : EntityState),
      (id2, st2) ∈ w2.entities →
      st2.sink.isSome = true ∨ st2.spatial_sink.isSome = true →
      (id2, st2) ∈
        (play_queued_audio_system out2 assets2 gv2 scale2 openOk2 w2).1.entities) := by
  refine ⟨?_, ?_, fun out2 assets2 gv2 scale2 openOk2 w2 id2 st2 hmem2 hs2 =>
    mem_play_queued_of_not_matches out2 assets2 gv2 scale2 openOk2 w2 hmem2
      (not_matches_of_sinked hs2)⟩
  · intro hsp
    unfold processAudioEntity
    cases hv : s.volume <;> cases hp : s.paused <;> cases hm : s.mode <;>
      simp [hsrc, hset, hready, hok, hsp, hv, hp, hm, VolumeLevel.get,
        RodioSink.try_new, RodioSink.set_speed, RodioSink.set_volume,
        RodioSink.pause, RodioSink.append]
  · intro hsp
    unfold processAudioEntity
    cases hv : s.volume <;> cases hp : s.paused <;> cases hm : s.mode <;>
      simp [hsrc, hset, hready, hok, hsp, hv, hp, hm, VolumeLevel.get,
        SpatialRodioSink.try_new, SpatialRodioSink.set_speed,
        SpatialRodioSink.set_volume, SpatialRodioSink.pause, SpatialRodioSink.append]

/-- C1 witness: the default request's sink is configured in order with
volume 1 at concrete inputs. -/
theorem c1_sink_configuration_order_witness :
    ∃ k, (processAudioEntity exReady GlobalVolume.default exListenerNone exOpen 0
        exEntity).1.sink = some k ∧
      k.trace =
        [SinkCmd.setSpeed PlaybackSettings.default.speed,
         SinkCmd.setVolume (match PlaybackSettings.default.volume with
           | Volume.Relative v => v.get * GlobalVolume.default.volume.get
           | Volume.Absolute v => v.get)] ++
        (if PlaybackSettings.default.paused = true then [SinkCmd.pause] else []) ++
        [SinkCmd.append (match PlaybackSettings.default.mode with
           | PlaybackMode.Loop => SinkStream.repeatInfinite 0
           | _ => SinkStream.finite 0)] ∧
      k.volume = (match PlaybackSettings.default.volume with
        | Volume.Relative v => v.get * GlobalVolume.default.volume.get
        | Volume.Absolute v => v.get) ∧
      k.speed = PlaybackSettings.default.speed ∧
      k.paused = PlaybackSettings.default.paused :=
  (c1_sink_configuration_order exReady GlobalVolume.default exListenerNone exOpen 0
    rfl rfl rfl rfl).1 rfl

/-- An entity with neither marker in any world is preserved verbatim by the
reaper sweep. -/
theorem cleanup_preserves_no_marker {w : World} {id : ℕ} {st : EntityState}
    (hd : st.despawn_marker = false) (hr : st.remove_marker = false)
    (hmem : (id, st) ∈ w.entities) :
    (id, st) ∈ (cleanup_finished_audio w).entities := by
  unfold cleanup_finished_audio
  refine List.mem_filterMap.mpr ⟨(id, st), hmem, ?_⟩
  rw [reapEntity_no_marker hd hr]
  rfl

/-- C4: with the asset ready and the backend open, the appended stream is the
decoder wrapped in `repeat_infinite` exactly for mode Loop and the plain
decoder for every other mode; a Loop request attaches no terminal marker; and
an entity without markers — as a Loop entity stays — is never touched by any
reaper sweep, in any frame. -/
theorem c4_loop_never_reaped (assets : ℕ → Bool) (gv : GlobalVolume)
    (listener : ListenerParam) (openOk : ℕ → Bool) (id : ℕ) {st : EntityState}
    {h : ℕ} {s : PlaybackSettings}
    (hsrc : st.source = some h) (hset : st.settings = some s)
    (hready : assets h = true) (hok : openOk id = true) :
    (s.spatial = false → ∃ k,
      (processAudioEntity assets gv listener openOk id st).1.sink = some k ∧
      k.queue = [if s.mode = PlaybackMode.Loop then SinkStream.repeatInfinite h
                 else SinkStream.finite h]) ∧
    (s.spatial = true → ∃ k,
      (processAudioEntity assets gv listener openOk id st).1.spatial_sink = some k ∧
      k.queue = [if s.mode = PlaybackMode.Loop then SinkStream.repeatInfinite h
                 else SinkStream.finite h]) ∧
    (s.mode = PlaybackMode.Loop →
      (processAudioEntity assets gv listener openOk id st).1.despawn_marker =
        st.despawn_marker ∧
      (processAudioEntity assets gv listener openOk id st).1.remove_marker =
        st.remove_marker) ∧
    (∀ (w2 : World) (id2 : ℕ) (st2 : EntityState),
      st2.despawn_marker = false → st2.remove_marker = false →
      (id2, st2) ∈ w2.entities →
      (id2, st2) ∈ (cleanup_finished_audio w2).entities) := by
  refine ⟨?_, ?_, ?_, fun w2 id2 st2 hd hr hmem =>
    cleanup_preserves_no_marker hd hr hmem⟩
  · intro hsp
    unfold processAudioEntity
    cases hv : s.volume <;> cases hp : s.paused <;> cases hm : s.mode <;>
      simp [hsrc, hset, hready, hok, hsp, hv, hp, hm,
        RodioSink.try_new, RodioSink.set_speed, RodioSink.set_volume,
        RodioSink.pause, RodioSink.append]
  · intro hsp
    unfold processAudioEntity
    cases hv : s.volume <;> cases hp : s.paused <;> cases hm : s.mode <;>
      simp [hsrc, hset, hready, hok, hsp, hv, hp, hm,
        SpatialRodioSink.try_new, SpatialRodioSink.set_speed,
        SpatialRodioSink.set_volume, SpatialRodioSink.pause, SpatialRodioSink.append]
  · intro hloop
    exact processAudioEntity_markers_unchanged assets gv listener openOk id
      (fun s2 hs2 => by rw [hset] at hs2; cases Option.some.inj hs2; exact Or.inr hloop)

/-- C4 witness: a concrete Loop request yields a sink queued with the
infinitely repeated stream. -/
theorem c4_loop_never_reaped_witness :
    ∃ k, (processAudioEntity exReady GlobalVolume.default exListenerNone exOpen 0
        { EntityState.empty with
            source := some 0
            settings := some PlaybackSettings.LOOP }).1.sink = some k ∧
      k.queue = [if PlaybackSettings.LOOP.mode = PlaybackMode.Loop
                 then SinkStream.repeatInfinite 0 else SinkStream.finite 0] :=
  (c4_loop_never_reaped exReady GlobalVolume.default exListenerNone exOpen 0
    rfl rfl rfl rfl).1 rfl

/-- While every present sink still reports non-empty, no reaper query fires. -/
theorem reapEntity_not_empty {st : EntityState}
    (h1 : ∀ k, st.sink = some k → k.empty = false)
    (h2 : ∀ k, st.spatial_sink = some k → k.empty = false) :
    reapEntity st = some st := by
  have e1 : (match st.sink with | some k => k.empty | none => false) = false := by
    cases hs : st.sink with
    | none => rfl
    | some k => exact h1 k hs
  have e2 : (match st.spatial_sink with | some k => k.empty | none => false) = false := by
    cases hs : st.spatial_sink with
    | none => rfl
    | some k => exact h2 k hs
  unfold reapEntity nonspatialDespawnFires spatialDespawnFires
    nonspatialRemoveFires spatialRemoveFires
  rw [e1, e2]
  simp

/-- A despawn-marked entity whose sink reports empty is despawned by the
sweep. -/
theorem reapEntity_despawn_none {st : EntityState}
    (hd : st.despawn_marker = true) (hsrc : st.source.isSome = true)
    (he : (∃ k, st.sink = some k ∧ k.empty = true) ∨
          (∃ k, st.spatial_sink = some k ∧ k.empty = true)) :
    reapEntity st = none := by
  unfold reapEntity
  rcases he with ⟨k, hk, hke⟩ | ⟨k, hk, hke⟩
  · have hf : nonspatialDespawnFires st = true := by
      unfold nonspatialDespawnFires
      rw [hk]
      simp [hd, hsrc, hke]
    rw [hf]
    rfl
  · have hf : spatialDespawnFires st = true := by
      unfold spatialDespawnFires
      rw [hk]
      simp [hd, hsrc, hke]
    rw [hf]
    simp

/-- In a distinct-id world, an entity whose reap action is despawn has no
entry left in the swept world. -/
theorem not_mem_cleanup_of_reap_none {w : World} {id : ℕ} {st : EntityState}
    (hnd : (w.entities.map Prod.fst).Nodup) (hmem : (id, st) ∈ w.entities)
    (hreap : reapEntity st = none) :
    ∀ st', (id, st') ∉ (cleanup_finished_audio w).entities := by
  intro st' hmem'
  unfold cleanup_finished_audio at hmem'
  rcases List.mem_filterMap.mp hmem' with ⟨⟨id2, st2⟩, hm2, he⟩
  cases hr : reapEntity st2 with
  | none => rw [hr] at he; cases he
  | some s2 =>
    rw [hr] at he
    have h3 := Option.some.inj he
    have hid : id2 = id := congrArg Prod.fst h3
    subst hid
    have hst : st2 = st := key_unique hnd hm2 hmem
    rw [hst, hreap] at hr
    cases hr

/-- A remove-marked, despawn-free entity whose non-spatial sink reports empty
and that has no spatial sink is stripped of the audio components. -/
theorem reapEntity_remove_nonspatial {st : EntityState} {k : RodioSink}
    (hd : st.despawn_marker = false) (hr : st.remove_marker = true)
    (hsrc : st.source.isSome = true)
    (hk : st.sink = some k) (hke : k.empty = true)
    (hss : st.spatial_sink = none) :
    reapEntity st = some (stripNonspatialRemove st) := by
  unfold reapEntity nonspatialDespawnFires spatialDespawnFires
    nonspatialRemoveFires spatialRemoveFires
  rw [hk, hss]
  simp [hd, hr, hsrc, hke]

/-- A remove-marked, despawn-free entity whose spatial sink reports empty and
that has no non-spatial sink is stripped of the audio components. -/
theorem reapEntity_remove_spatial {st : EntityState} {k : SpatialRodioSink}
    (hd : st.despawn_marker = false) (hr : st.remove_marker = true)
    (hsrc : st.source.isSome = true)
    (hk : st.spatial_sink = some k) (hke : k.empty = true)
    (hns : st.sink = none) :
    reapEntity st = some (stripSpatialRemove st) := by
  unfold reapEntity nonspatialDespawnFires spatialDespawnFires
    nonspatialRemoveFires spatialRemoveFires
  rw [hk, hns]
  simp [hd, hr, hsrc, hke]

/-- The whole-world reaper sweep is idempotent: a second sweep right after a
first one changes nothing. -/
theorem cleanup_finished_audio_idem (w : World) :
    cleanup_finished_audio (cleanup_finished_audio w) = cleanup_finished_audio w := by
  unfold cleanup_finished_audio
  congr 1
  rw [List.filterMap_filterMap]
  have hfun : (fun a : ℕ × EntityState =>
      ((reapEntity a.2).map (fun st => (a.1, st))).bind
        (fun e => (reapEntity e.2).map (fun st => (e.1, st)))) =
      fun a : ℕ × EntityState => (reapEntity a.2).map (fun st => (a.1, st)) := by
    funext a
    cases hr : reapEntity a.2 with
    | none => simp
    | some s2 => simp [reapEntity_idem hr]
  rw [hfun]

/-- C3: the reaper acts on a marked entity only when its sink reports empty
(otherwise the entity passes through unchanged); a despawn-marked entity with
an empty sink is removed from the world entirely; a remove-marked entity with
an empty sink survives with its source handle, playback settings, sink and
marker stripped; and the sweep is idempotent, so a second sweep after the
action is a no-op. -/
theorem c3_reaper_terminal_actions (w : World) {id : ℕ} {st : EntityState}
    (hnd : (w.entities.map Prod.fst).Nodup)
    (hmem : (id, st) ∈ w.entities) :
    ((∀ k, st.sink = some k → k.empty = false) →
     (∀ k, st.spatial_sink = some k → k.empty = false) →
      (id, st) ∈ (cleanup_finished_audio w).entities) ∧
    (st.despawn_marker = true → st.source.isSome = true →
      ((∃ k, st.sink = some k ∧ k.empty = true) ∨
       (∃ k, st.spatial_sink = some k ∧ k.empty = true)) →
      ∀ st', (id, st') ∉ (cleanup_finished_audio w).entities) ∧
    (st.despawn_marker = false → st.remove_marker = true → st.source.isSome = true →
      ∀ k, st.sink = some k → k.empty = true → st.spatial_sink = none →
      (id, { st with
               source := none
               settings := none
               sink := none
               remove_marker := false }) ∈ (cleanup_finished_audio w).entities) ∧
    (st.despawn_marker = false → st.remove_marker = true → st.source.isSome = true →
      ∀ k, st.spatial_sink = some k → k.empty = true → st.sink = none →
      (id, { st with
               source := none
               settings := none
               spatial_sink := none
               remove_marker := false }) ∈ (cleanup_finished_audio w).entities) ∧
    cleanup_finished_audio (cleanup_finished_audio w) = cleanup_finished_audio w := by
  refine ⟨?_, ?_, ?_, ?_, cleanup_finished_audio_idem w⟩
  · intro h1 h2
    unfold cleanup_finished_audio
    refine List.mem_filterMap.mpr ⟨(id, st), hmem, ?_⟩
    rw [reapEntity_not_empty h1 h2]
    rfl
  · intro hd hsrc he
    exact not_mem_cleanup_of_reap_none hnd hmem (reapEntity_despawn_none hd hsrc he)
  · intro hd hr hsrc k hk hke hss
    unfold cleanup_finished_audio
    refine List.mem_filterMap.mpr ⟨(id, st), hmem, ?_⟩
    rw [reapEntity_remove_nonspatial hd hr hsrc hk hke hss]
    rfl
  · intro hd hr hsrc k hk hke hns
    unfold cleanup_finished_audio
    refine List.mem_filterMap.mpr ⟨(id, st), hmem, ?_⟩
    rw [reapEntity_remove_spatial hd hr hsrc hk hke hns]
    rfl

/-- A finished non-spatial sink for the C3 witness. -/
def exDoneSink : RodioSink := { RodioSink.try_new with empty := true }

/-- A remove-marked entity whose sink has finished, for the C3 witness. -/
def exRemoveDone : EntityState :=
  { EntityState.empty with
      source := some 0
      sink := some exDoneSink
      remove_marker := true }

/-- A one-entity world holding a finished remove-marked request. -/
def exWorldRemove : World := ⟨[(5, exRemoveDone)]⟩

/-- C3 witness: sweeping the concrete finished remove-marked entity strips the
audio components but keeps the entity alive. -/
theorem c3_reaper_terminal_actions_witness :
    (5, { exRemoveDone with
            source := none
            settings := none
            sink := none
            remove_marker := false }) ∈ (cleanup_finished_audio exWorldRemove).entities :=
  (c3_reaper_terminal_actions exWorldRemove (by decide) (List.mem_cons_self _ _)).2.2.1
    rfl rfl rfl exDoneSink rfl rfl rfl

/-- Default listener geometry: a gap of 4 along the x axis split symmetrically
into ears at -2 and +2. -/
theorem spatialListener_default_offsets :
    SpatialListener.default.left_ear_offset = (⟨-2, 0, 0⟩ : Vec3) ∧
    SpatialListener.default.right_ear_offset = (⟨2, 0, 0⟩ : Vec3) := by
  constructor <;>
    simp [SpatialListener.default, SpatialListener.new, Vec3.smul, Vec3.unitX] <;>
    norm_num

/-- With the asset ready, the spatial flag set and the backend open, the sink
is opened with the resolved ear positions and the emitter taken from the
entity's transform (scaled), or the origin when the transform is absent. -/
theorem processAudioEntity_spatial_fields (assets : ℕ → Bool) (gv : GlobalVolume)
    (listener : ListenerParam) (openOk : ℕ → Bool) (id : ℕ) {st : EntityState}
    {h : ℕ} {s : PlaybackSettings}
    (hsrc : st.source = some h) (hset : st.settings = some s)
    (hsp : s.spatial = true) (hready : assets h = true) (hok : openOk id = true) :
    ∃ k, (processAudioEntity assets gv listener openOk id st).1.spatial_sink = some k ∧
      k.left_ear = listener.get_ear_positions.1 ∧
      k.right_ear = listener.get_ear_positions.2 ∧
      (∀ t, st.transform = some t →
        k.emitter = t.translation.hadamard listener.spatial_scale) ∧
      (st.transform = none → k.emitter = Vec3.ZERO) := by
  unfold processAudioEntity
  cases ht : st.transform <;> cases hv : s.volume <;> cases hp : s.paused <;>
    cases hm : s.mode <;>
      simp [hsrc, hset, hsp, hready, hok, ht, hv, hp, hm,
        SpatialRodioSink.try_new, SpatialRodioSink.set_speed,
        SpatialRodioSink.set_volume, SpatialRodioSink.pause, SpatialRodioSink.append]

/-- Processing a spatial request warns about multiple listeners, naming the
first one, whenever more than one listener exists. -/
theorem processAudioEntity_multi_listener_warn (assets : ℕ → Bool) (gv : GlobalVolume)
    (listener : ListenerParam) (openOk : ℕ → Bool) (id : ℕ) {st : EntityState}
    {h : ℕ} {s : PlaybackSettings} {lid : ℕ} {t : GlobalTransform}
    {l : SpatialListener} {rest : List (ℕ × GlobalTransform × SpatialListener)}
    (hsrc : st.source = some h) (hset : st.settings = some s)
    (hsp : s.spatial = true) (hready : assets h = true)
    (hq : listener.listeners = (lid, t, l) :: rest)
    (hlen : listener.listeners.length > 1) :
    LogMsg.multipleListeners lid ∈
      (processAudioEntity assets gv listener openOk id st).2 := by
  have hrest : 0 < rest.length := by
    rw [hq] at hlen
    simpa using hlen
  unfold processAudioEntity
  cases hok : openOk id <;> cases ht : st.transform <;> cases hv : s.volume <;>
    cases hp : s.paused <;> cases hm : s.mode <;>
      simp [hsrc, hset, hsp, hready, hok, ht, hv, hp, hm, hq, hrest]

/-- Processing a spatial request on an entity without a transform warns about
the missing transform. -/
theorem processAudioEntity_no_transform_warn (assets : ℕ → Bool) (gv : GlobalVolume)
    (listener : ListenerParam) (openOk : ℕ → Bool) (id : ℕ) {st : EntityState}
    {h : ℕ} {s : PlaybackSettings}
    (hsrc : st.source = some h) (hset : st.settings = some s)
    (hsp : s.spatial = true) (hready : assets h = true)
    (ht : st.transform = none) :
    LogMsg.noGlobalTransform ∈
      (processAudioEntity assets gv listener openOk id st).2 := by
  unfold processAudioEntity
  cases hok : openOk id <;> cases hv : s.volume <;> cases hp : s.paused <;>
    cases hm : s.mode <;>
      simp [hsrc, hset, hsp, hready, hok, ht, hv, hp, hm]

/-- C5: ear positions come from the first SpatialListener found (transformed
by its world transform and scaled by SpatialScale), with a warning naming the
first listener when more than one exists, or from the default geometry (gap
4.0 along the x axis split symmetrically) scaled by SpatialScale when none
exists; the emitter is the entity's world translation scaled by SpatialScale,
or the origin with a warning when the entity has no transform. -/
theorem c5_spatial_resolution (out : AudioOutput) (assets : ℕ → Bool)
    (gv : GlobalVolume) (scale : Vec3) (openOk : ℕ → Bool) (w : World)
    {id : ℕ} {st : EntityState} {h : ℕ} {s : PlaybackSettings}
    (hout : out.stream_handle = some ())
    (hmem : (id, st) ∈ w.entities)
    (hsrc : st.source = some h) (hset : st.settings = some s)
    (hsp : s.spatial = true) (hready : assets h = true) (hok : openOk id = true)
    (hsink : st.sink = none) (hssk : st.spatial_sink = none) :
    (w.listenerQuery = [] →
      (w.listenerParam scale).get_ear_positions =
        (Vec3.hadamard ⟨-2, 0, 0⟩ scale, Vec3.hadamard ⟨2, 0, 0⟩ scale)) ∧
    (∀ lid t l rest, w.listenerQuery = (lid, t, l) :: rest →
      (w.listenerParam scale).get_ear_positions =
        ((t.transform_point l.left_ear_offset).hadamard scale,
         (t.transform_point l.right_ear_offset).hadamard scale) ∧
      (w.listenerQuery.length > 1 →
        LogMsg.multipleListeners lid ∈
          (play_queued_audio_system out assets gv scale openOk w).2)) ∧
    (∃ st' k,
      (id, st') ∈ (play_queued_audio_system out assets gv scale openOk w).1.entities ∧
      st'.spatial_sink = some k ∧
      k.left_ear = (w.listenerParam scale).get_ear_positions.1 ∧
      k.right_ear = (w.listenerParam scale).get_ear_positions.2 ∧
      (∀ t, st.transform = some t → k.emitter = t.translation.hadamard scale) ∧
      (st.transform = none → k.emitter = Vec3.ZERO ∧
        LogMsg.noGlobalTransform ∈
          (play_queued_audio_system out assets gv scale openOk w).2)) := by
  have hmatch := matchesNonplaying_of_components hsrc hset hsink hssk
  refine ⟨?_, ?_, ?_⟩
  · intro hq
    unfold ListenerParam.get_ear_positions World.listenerParam
    rw [hq]
    rw [spatialListener_default_offsets.1, spatialListener_default_offsets.2]
  · intro lid t l rest hq
    constructor
    · unfold ListenerParam.get_ear_positions World.listenerParam
      rw [hq]
    · intro hlen
      refine play_queued_log_mem out assets gv scale openOk w hout hmem hmatch ?_
      exact processAudioEntity_multi_listener_warn assets gv (w.listenerParam scale)
        openOk id hsrc hset hsp hready hq hlen
  · rcases processAudioEntity_spatial_fields assets gv (w.listenerParam scale) openOk id
      hsrc hset hsp hready hok with ⟨k, hk, hle, hre, hemit, hzero⟩
    refine ⟨(processAudioEntity assets gv (w.listenerParam scale) openOk id st).1, k,
      mem_play_queued_of_matches out assets gv scale openOk w hout hmem hmatch,
      hk, hle, hre, hemit, ?_⟩
    intro ht
    refine ⟨hzero ht, ?_⟩
    refine play_queued_log_mem out assets gv scale openOk w hout hmem hmatch ?_
    exact processAudioEntity_no_transform_warn assets gv (w.listenerParam scale)
      openOk id hsrc hset hsp hready ht

/-- Playback settings requesting a spatial sink, for the C5 witness. -/
def exSpatialSettings : PlaybackSettings :=
  { mode := .Once, volume := .Relative ⟨1⟩, speed := 1, paused := false, spatial := true }

/-- A transformless spatial request entity, for the C5 witness. -/
def exSpatialEntity : EntityState :=
  { EntityState.empty with source := some 0, settings := some exSpatialSettings }

/-- A one-entity world holding a transformless spatial request and no
listeners. -/
def exWorldSpatial : World := ⟨[(0, exSpatialEntity)]⟩

/-- C5 witness: with no listener the concrete spatial request resolves the
default scaled ears, and the transformless emitter sits at the origin. -/
theorem c5_spatial_resolution_witness :
    (exWorldSpatial.listenerParam Vec3.ONE).get_ear_positions =
      (Vec3.hadamard ⟨-2, 0, 0⟩ Vec3.ONE, Vec3.hadamard ⟨2, 0, 0⟩ Vec3.ONE) ∧
    (∃ st' k,
      (0, st') ∈ (play_queued_audio_system exOut exReady GlobalVolume.default
        Vec3.ONE exOpen exWorldSpatial).1.entities ∧
      st'.spatial_sink = some k ∧
      k.emitter = Vec3.ZERO) := by
  have hc := c5_spatial_resolution exOut exReady GlobalVolume.default Vec3.ONE exOpen
    exWorldSpatial rfl (List.mem_cons_self _ _) rfl rfl rfl rfl rfl rfl rfl
  refine ⟨hc.1 rfl, ?_⟩
  rcases hc.2.2 with ⟨st', k, hmem, hk, _, _, _, hzero⟩
  exact ⟨st', k, hmem, hk, (hzero rfl).1⟩

end BevyAudio
